import Mathlib

/-!
Shallow embedding of the lead-tracking CRM in `complete_flask_crm.py`.

Modelling conventions:
* Calendar dates are represented as day numbers (`Nat`, days since an epoch)
  and datetimes as second counts (`Nat`, seconds since the same epoch), an
  order-isomorphic image of Python `date`/`datetime` values: one day is
  86400 seconds, so midnight of day `d` is `d * 86400` and 23:59:59 of day
  `d` is `d * 86400 + 86399`.
* An HTML form field fetched with `request.form.get(name)` is an
  `Option` value (`none` = field absent or empty, which are both falsy in
  Python); a field fetched with `request.form.get(name, "")` is an
  `Option String` coalesced with `getD ""` exactly where the code applies
  the default.  Date and time fields arrive from `<input type=date/time>`
  widgets already well-formed, so a present field is modelled as the parsed
  value (`datetime.strptime(x, ...) if x else None` becomes the identity on
  `Option`).
* `db.session.commit()` runs SQLAlchemy's unit of work, which emits an
  UPDATE for a dirty row — and with it the column's
  `onupdate=datetime.utcnow` hook — only when some assigned attribute
  value differs from the stored one; a commit whose assignments all equal
  the stored values emits no UPDATE and leaves the row, `updated_at`
  included, untouched.  The hook's clock is an explicit argument `now`,
  stamped into `updated_at` exactly when the row has a net change.
* Text columns that the form handlers always populate with a stripped
  string are modelled as `String` (`""` for a blank submission);
  `assigned_to` and `reschedule_remark` are `Option String` because the
  code observably distinguishes NULL from a string there
  (`filter_by(assigned_to=None)`; the NULL → `''` transition of a first
  remark write is a net change that fires the `onupdate` hook).
* The SQLAlchemy repository is a `List Lead`; `filter_by(lead_id=...).first()`
  is `List.find?`, and mutating the found row is replacing the first match.
-/

namespace CRM

/-- Python `str.strip()` on a form value: drop leading and trailing
whitespace.  Defined over the character list so that it reduces in the
kernel. -/
def pyStrip (s : String) : String :=
  String.mk (((s.data.dropWhile Char.isWhitespace).reverse.dropWhile
    Char.isWhitespace).reverse)

/-- The `Lead` model of `complete_flask_crm.py` (lines 33-53): one row of
the `Lead` table.  `meeting_date`/`reschedule_date` are day numbers,
`meeting_time`/`reschedule_time` are second-of-day counts, and
`created_at`/`updated_at` are datetime second counts. -/
structure Lead where
  lead_id : String
  architect_name : String
  firm_name : String
  grade : Option String
  client_type : Option String
  bd_name : String
  meeting_date : Option Nat
  meeting_time : Option Nat
  remark : String
  assigned_to : Option String
  reschedule_date : Option Nat
  reschedule_time : Option Nat
  reschedule_remark : Option String
  not_interested : Bool
  require_letter : Bool
  email_catalogue : Bool
  quotation_sent : Bool
  created_at : Nat
  updated_at : Nat
deriving Repr, DecidableEq

/-- The error conditions the routes surface via `flash` (spec taxonomy §7):
`ValidationError` for missing required input, `NotFound` for an unknown
`lead_id` or username, `NoDataForExport` for an empty export, and
`StorageFailure` for a persistence fault (e.g. the UNIQUE constraint on
`lead_id` firing at insert). -/
inductive CrmError where
  | ValidationError
  | NotFound
  | NoDataForExport
  | StorageFailure
deriving Repr, DecidableEq

instance {ε α : Type} [DecidableEq ε] [DecidableEq α] :
    DecidableEq (Except ε α) := fun a b =>
  match a, b with
  | .error e, .error f =>
      if h : e = f then .isTrue (by rw [h])
      else .isFalse (by intro hc; injection hc; contradiction)
  | .error _, .ok _ => .isFalse (by intro hc; injection hc)
  | .ok _, .error _ => .isFalse (by intro hc; injection hc)
  | .ok x, .ok y =>
      if h : x = y then .isTrue (by rw [h])
      else .isFalse (by intro hc; injection hc; contradiction)

/-- `Lead.query.filter_by(lead_id=lid).first()`. -/
def findByLeadId (repo : List Lead) (lid : String) : Option Lead :=
  repo.find? (fun l => l.lead_id == lid)

/-- Mutating the row returned by `filter_by(lead_id=lid).first()` and
committing: replace the first row whose `lead_id` matches. -/
def updateFirst (repo : List Lead) (lid : String) (f : Lead → Lead) : List Lead :=
  match repo with
  | [] => []
  | l :: rest =>
      if l.lead_id == lid then f l :: rest else l :: updateFirst rest lid f

/-- The effect of `lead.assigned_to = assigned_to; db.session.commit()`
(lines 436-437) on the found row: SQLAlchemy's flush emits an UPDATE — and
fires the `updated_at` `onupdate` hook — only when the assigned value
differs from the stored one; re-assigning the identical name leaves the
row untouched. -/
def assignRow (target : String) (now : Nat) (l : Lead) : Lead :=
  if l.assigned_to = some target then l
  else { l with assigned_to := some target, updated_at := now }

/-- The POST branch of `/assign_lead` (lines 426-444): strip the target
name; a blank target flashes a validation message and changes nothing; an
unknown `lead_id` flashes "Lead not found"; otherwise the found row is
committed with the new assignment (see `assignRow` for when the commit
actually writes).  Returns the new repository state and the outcome. -/
def assign_lead (repo : List Lead) (lead_id : String) (assigned_to_raw : Option String)
    (now : Nat) : List Lead × Except CrmError Unit :=
  let assigned_to := pyStrip (assigned_to_raw.getD "")
  if assigned_to = "" then
    (repo, .error .ValidationError)
  else
    match findByLeadId repo lead_id with
    | some _ => (updateFirst repo lead_id (assignRow assigned_to now), .ok ())
    | none => (repo, .error .NotFound)

theorem findByLeadId_updateFirst (repo : List Lead) (lid : String) (f : Lead → Lead)
    (hf : ∀ l, (f l).lead_id = l.lead_id) :
    ∀ l, findByLeadId repo lid = some l →
      findByLeadId (updateFirst repo lid f) lid = some (f l) := by
  induction repo with
  | nil => intro l h; simp [findByLeadId] at h
  | cons hd tl ih =>
      intro l h
      by_cases hhd : hd.lead_id == lid
      · simp [findByLeadId, List.find?, hhd] at h
        subst h
        simp [updateFirst, hhd, findByLeadId, List.find?, hf, hhd]
      · simp [findByLeadId, List.find?, hhd] at h ⊢
        simp [updateFirst, hhd, findByLeadId, List.find?]
        exact ih l h

/-- Midnight of day `d` as a datetime second count:
`datetime.strptime(start_date, "%Y-%m-%d")` (line 629). -/
def dayStartSecs (d : Nat) : Nat := d * 86400

/-- 23:59:59 of day `d` as a datetime second count:
`datetime.strptime(end_date, "%Y-%m-%d").replace(hour=23, minute=59, second=59)`
(line 630). -/
def dayEndSecs (d : Nat) : Nat := d * 86400 + 86399

/-- The `created_range` branch of `/export_data` (lines 628-631):
`Lead.created_at.between(start_datetime, end_datetime)`, SQL BETWEEN with
inclusive bounds, the end bound extended to the end of the calendar day. -/
def filterByCreatedRange (repo : List Lead) (d1 d2 : Nat) : List Lead :=
  repo.filter (fun l =>
    decide (dayStartSecs d1 ≤ l.created_at) && decide (l.created_at ≤ dayEndSecs d2))

/-- The checkbox signals present in the POST body of `/meeting_stats`:
`"not_interested" in request.form` etc. (lines 560-563). -/
structure FlagForm where
  not_interested : Bool
  require_letter : Bool
  email_catalogue : Bool
  quotation_sent : Bool
deriving Repr, DecidableEq

/-- The effect of the four flag assignments plus commit (lines 560-564) on
the found row: the flush emits an UPDATE — and fires the `updated_at`
`onupdate` hook — only when at least one flag value differs from the
stored one; a commit that re-submits the stored flag values leaves the row
untouched. -/
def flagsRow (form : FlagForm) (now : Nat) (l : Lead) : Lead :=
  if l.not_interested = form.not_interested ∧
     l.require_letter = form.require_letter ∧
     l.email_catalogue = form.email_catalogue ∧
     l.quotation_sent = form.quotation_sent then l
  else
    { l with not_interested := form.not_interested,
             require_letter := form.require_letter,
             email_catalogue := form.email_catalogue,
             quotation_sent := form.quotation_sent,
             updated_at := now }

/-- The POST branch of `/meeting_stats` (lines 554-568): look the lead up by
`lead_id`; if found, set each of the four follow-up booleans to the presence
of its checkbox in the form and commit (see `flagsRow` for when the commit
actually writes); otherwise flash "Lead not found". -/
def meeting_stats (repo : List Lead) (lead_id : String) (form : FlagForm)
    (now : Nat) : List Lead × Except CrmError Unit :=
  match findByLeadId repo lead_id with
  | some _ => (updateFirst repo lead_id (flagsRow form now), .ok ())
  | none => (repo, .error .NotFound)

/-- The reschedule form of `/reschedule_meeting`: `reschedule_date` and
`reschedule_time` are absent-or-parsed optional values (lines 492-496),
`remark` is fetched with default `""` and stripped (line 500). -/
structure RescheduleForm where
  reschedule_date : Option Nat
  reschedule_time : Option Nat
  remark : Option String
deriving Repr, DecidableEq

/-- The effect of the three reschedule assignments plus commit (lines
498-501) on the found row: the submitted values are the optional date and
time and the stripped remark string (never NULL, so a first write over a
NULL remark is a net change); the flush emits an UPDATE — and fires the
`updated_at` `onupdate` hook — only when at least one submitted value
differs from the stored one, and a commit that re-submits the stored
values leaves the row untouched. -/
def rescheduleRow (form : RescheduleForm) (now : Nat) (l : Lead) : Lead :=
  if l.reschedule_date = form.reschedule_date ∧
     l.reschedule_time = form.reschedule_time ∧
     l.reschedule_remark = some (pyStrip (form.remark.getD "")) then l
  else
    { l with reschedule_date := form.reschedule_date,
             reschedule_time := form.reschedule_time,
             reschedule_remark := some (pyStrip (form.remark.getD "")),
             updated_at := now }

/-- The POST branch of `/reschedule_meeting` (lines 486-508): look the lead
up by `lead_id`; if found, overwrite `reschedule_date`, `reschedule_time`
and `reschedule_remark` from the form (absent date/time become NULL, absent
remark becomes the empty string) and commit (see `rescheduleRow` for when
the commit actually writes); otherwise flash "Lead not found" and leave
the repository unchanged. -/
def reschedule_meeting (repo : List Lead) (lead_id : String)
    (form : RescheduleForm) (now : Nat) : List Lead × Except CrmError Unit :=
  match findByLeadId repo lead_id with
  | some _ => (updateFirst repo lead_id (rescheduleRow form now), .ok ())
  | none => (repo, .error .NotFound)

/-- The `date_range` branch of `/export_data` (lines 624-627):
`Lead.meeting_date.between(start_date_obj, end_date_obj)`, SQL BETWEEN with
inclusive bounds; a row whose `meeting_date` is NULL fails the comparison
and is excluded. -/
def filterByMeetingDateRange (repo : List Lead) (d1 d2 : Nat) : List Lead :=
  repo.filter (fun l =>
    match l.meeting_date with
    | some m => decide (d1 ≤ m) && decide (m ≤ d2)
    | none => false)

/-- The filter-building section of `/export_data` (lines 617-631): the
meeting-date range applies only when `export_type` is `"date_range"` and
both dates are present (truthy), the created range only when `export_type`
is `"created_range"` and both dates are present; in every other case the
query is left unfiltered. -/
def export_filter (repo : List Lead) (export_type : String)
    (start_date end_date : Option Nat) : List Lead :=
  if export_type = "date_range" then
    match start_date, end_date with
    | some d1, some d2 => filterByMeetingDateRange repo d1 d2
    | _, _ => repo
  else if export_type = "created_range" then
    match start_date, end_date with
    | some d1, some d2 => filterByCreatedRange repo d1 d2
    | _, _ => repo
  else repo

/-- The ordering of `query.order_by(Lead.created_at.desc())` (line 633):
most recently created first. -/
def createdDesc (a b : Lead) : Prop := b.created_at ≤ a.created_at

instance : DecidableRel createdDesc := fun a b => Nat.decLe b.created_at a.created_at

instance : IsTotal Lead createdDesc :=
  ⟨fun a b => Nat.le_total b.created_at a.created_at⟩

instance : IsTrans Lead createdDesc :=
  ⟨fun _ _ _ h1 h2 => Nat.le_trans h2 h1⟩

/-- `query.order_by(Lead.created_at.desc()).all()` (line 633): the filtered
rows sorted by `created_at` descending. -/
def sortByCreatedDesc (repo : List Lead) : List Lead :=
  List.insertionSort createdDesc repo

/-- A boolean column value in the export sheet: `'Yes' if flag else 'No'`
(lines 659-662). -/
def boolCell (b : Bool) : String := if b then "Yes" else "No"

/-- A nullable date/time cell: the value rendered when present, `''` when
NULL (the decimal rendering of the day/second number stands in for the
fixed `strftime` format of lines 652-657). -/
def fmtOptNat : Option Nat → String
  | some n => toString n
  | none => ""

/-- A nullable text cell rendered with `or ''` (lines 647-658). -/
def fmtOptStr : Option String → String
  | some s => s
  | none => ""

/-- The column headers of the export sheet, in the fixed order of the dict
built at lines 645-665. -/
def headerRow : List String :=
  ["Lead ID", "Architect Name", "Firm Name", "Grade", "Client Type", "BD Name",
   "Meeting Date", "Meeting Time", "Remark", "Assigned To", "Reschedule Date",
   "Reschedule Time", "Reschedule Remark", "Not Interested", "Require Letter",
   "Email Catalogue", "Quotation Sent", "Created At", "Updated At"]

/-- One data row of the export sheet: the per-lead dict of lines 645-665 in
column order, booleans rendered `Yes`/`No`, NULLs as `''`. -/
def leadRow (l : Lead) : List String :=
  [l.lead_id, l.architect_name, l.firm_name, fmtOptStr l.grade,
   fmtOptStr l.client_type, l.bd_name, fmtOptNat l.meeting_date,
   fmtOptNat l.meeting_time, l.remark, fmtOptStr l.assigned_to,
   fmtOptNat l.reschedule_date, fmtOptNat l.reschedule_time,
   fmtOptStr l.reschedule_remark, boolCell l.not_interested, boolCell l.require_letter,
   boolCell l.email_catalogue, boolCell l.quotation_sent,
   toString l.created_at, toString l.updated_at]

/-- The POST branch of `/export_data` (lines 615-710): filter, order by
`created_at` descending, flash "No data found for the selected criteria"
and produce nothing when the result is empty, and otherwise produce the
sheet as its row list — one header row followed by one row per lead. -/
def export_data (repo : List Lead) (export_type : String)
    (start_date end_date : Option Nat) : Except CrmError (List (List String)) :=
  let leads := sortByCreatedDesc (export_filter repo export_type start_date end_date)
  if leads.isEmpty then .error .NoDataForExport
  else .ok (headerRow :: leads.map leadRow)

/-- Lowercase hexadecimal digit for one nibble, as the nibbles of
`str(uuid.uuid4())` are rendered. -/
def hexDigit (n : Fin 16) : Char :=
  if n.val < 10 then Char.ofNat (48 + n.val) else Char.ofNat (87 + n.val)

/-- `str(uuid.uuid4())[:8].upper()` (line 347): the first eight random
nibbles of the UUID rendered as hex digits and uppercased.  The random
source is the nibble list argument. -/
def genLeadId (nibbles : List (Fin 16)) : String :=
  String.mk ((nibbles.take 8).map (fun n => (hexDigit n).toUpper))

/-- The fields of the new-lead form (lines 340-355): the text fields are
fetched with default `""` and stripped, the select fields arrive as-is,
and the date and time fields are absent-or-parsed optional values. -/
structure NewLeadForm where
  architect_name : Option String
  firm_name : Option String
  grade : Option String
  client_type : Option String
  bd_name : Option String
  meeting_date : Option Nat
  meeting_time : Option Nat
  remark : Option String
deriving Repr, DecidableEq

/-- The `Lead(...)` constructor call of lines 346-356 together with the
column defaults of the model (lines 44-53): unset columns are NULL, the
four flags default to false, and `created_at` and `updated_at` are both
stamped with the insert-time clock. -/
def buildLead (lid : String) (form : NewLeadForm) (now : Nat) : Lead :=
  { lead_id := lid,
    architect_name := pyStrip (form.architect_name.getD ""),
    firm_name := pyStrip (form.firm_name.getD ""),
    grade := form.grade,
    client_type := form.client_type,
    bd_name := pyStrip (form.bd_name.getD ""),
    meeting_date := form.meeting_date,
    meeting_time := form.meeting_time,
    remark := pyStrip (form.remark.getD ""),
    assigned_to := none,
    reschedule_date := none,
    reschedule_time := none,
    reschedule_remark := none,
    not_interested := false,
    require_letter := false,
    email_catalogue := false,
    quotation_sent := false,
    created_at := now,
    updated_at := now }

/-- The POST branch of `/new_lead` (lines 337-363): build the row with a
generated `lead_id` and insert it.  The UNIQUE constraint on `lead_id`
(line 35) makes the commit raise when the generated token collides with a
stored one; the handler catches the exception and rolls back, leaving the
repository unchanged. -/
def new_lead (repo : List Lead) (nibbles : List (Fin 16)) (form : NewLeadForm)
    (now : Nat) : List Lead × Except CrmError Lead :=
  let lid := genLeadId nibbles
  if repo.any (fun l => l.lead_id == lid) then (repo, .error .StorageFailure)
  else (repo ++ [buildLead lid form now], .ok (buildLead lid form now))

/-- The `User` model (lines 19-23).  `password_hash` holds the werkzeug
hash string, with `""` standing for a NULL/absent hash (both are falsy in
the Python checks). -/
structure User where
  username : String
  password_hash : String
  role : String
deriving Repr, DecidableEq

/-- Modelled from the spec: werkzeug's `generate_password_hash` (a salted
one-way hash, outside this repository) is modelled as a deterministic
injective encoding of the password; the claims need only that a stored
hash verifies exactly against the password it was generated from, and that
it is never empty. -/
def generate_password_hash (password : String) : String :=
  "pbkdf2-sha256$" ++ password

/-- Modelled from the spec: werkzeug's `check_password_hash` succeeds
exactly when the password matches the one the stored hash encodes. -/
def check_password_hash (hash password : String) : Bool :=
  hash == generate_password_hash password

/-- What the login POST observably produces for the caller (lines
207-228): a session-creating success carrying the username and role, or a
flashed failure message. -/
inductive LoginResult where
  | success (username : String) (role : String)
  | failure (message : String)
deriving Repr, DecidableEq

/-- The POST branch of `/` (lines 207-228): strip the username; an empty
username or password flashes a prompt; an unknown username flashes
"Invalid username or password"; a user with an absent stored hash flashes
the account-reset message; a password match creates the session; a
mismatch flashes "Invalid username or password" — the same message as the
unknown-username case. -/
def login (users : List User) (username_raw password : String) : LoginResult :=
  let username := pyStrip username_raw
  if username = "" ∨ password = "" then
    .failure "Please enter both username and password"
  else
    match users.find? (fun u => u.username == username) with
    | some user =>
        if user.password_hash = "" then
          .failure "User account needs to be reset. Contact administrator."
        else if check_password_hash user.password_hash password then
          .success user.username user.role
        else
          .failure "Invalid username or password"
    | none => .failure "Invalid username or password"

/-- A concrete lead record used to instantiate witness theorems. -/
def sampleLead : Lead :=
  { lead_id := "A1B2C3D4", architect_name := "J. Doe", firm_name := "",
    grade := some "A", client_type := some "NBD", bd_name := "Sam",
    meeting_date := some 19800, meeting_time := some 36000, remark := "",
    assigned_to := none, reschedule_date := none, reschedule_time := none,
    reschedule_remark := none, not_interested := false, require_letter := true,
    email_catalogue := false, quotation_sent := false,
    created_at := 1700000000, updated_at := 1700000000 }

theorem assignRow_lead_id (t : String) (now : Nat) (l : Lead) :
    (assignRow t now l).lead_id = l.lead_id := by
  unfold assignRow
  split <;> rfl

/-- A lead already assigned to "Priya", for the C1 counterexample. -/
def assignedLead : Lead := { sampleLead with assigned_to := some "Priya" }

/-- C1 counterexample: re-assigning the identical stored name is a
successful assignment call — non-blank target, existing lead, later
clock — yet the flush finds no net change and emits no UPDATE, so the
stored row, `updated_at` included, is left unchanged: `updated_at` does
not strictly increase, refuting the claim as stated. -/
theorem assign_same_name_no_touch :
    pyStrip ((some "Priya" : Option String).getD "") ≠ "" ∧
    assignedLead.updated_at < 1700000100 ∧
    assign_lead [assignedLead] "A1B2C3D4" (some "Priya") 1700000100 =
      ([assignedLead], Except.ok ()) ∧
    findByLeadId (assign_lead [assignedLead] "A1B2C3D4" (some "Priya") 1700000100).1
      "A1B2C3D4" = some assignedLead ∧
    ¬ assignedLead.updated_at < assignedLead.updated_at := by
  decide

/-- C1 (amended): an assignment call whose target name is non-empty after
stripping, on an existing lead, succeeds and sets `assigned_to` to exactly
the stripped target; `updated_at` strictly increases exactly when the
target differs from the stored assignment (the flush then writes the row
and stamps the later commit clock), while re-assigning the identical name
emits no UPDATE and leaves the record unchanged.  A blank target leaves
the repository unchanged and reports `ValidationError` (the blank check
runs before the lead lookup); a non-blank call naming an unknown `lead_id`
leaves the repository unchanged and reports `NotFound`. -/
theorem assign_lead_spec (repo : List Lead) (lid : String) (target : Option String)
    (now : Nat) :
    (∀ l, pyStrip (target.getD "") ≠ "" → findByLeadId repo lid = some l →
        l.updated_at < now →
        (assign_lead repo lid target now).2 = Except.ok () ∧
        ∃ l', findByLeadId (assign_lead repo lid target now).1 lid = some l' ∧
          l'.assigned_to = some (pyStrip (target.getD "")) ∧
          (l.assigned_to ≠ some (pyStrip (target.getD "")) →
            l.updated_at < l'.updated_at) ∧
          (l.assigned_to = some (pyStrip (target.getD "")) → l' = l)) ∧
    (pyStrip (target.getD "") = "" →
        assign_lead repo lid target now = (repo, Except.error CrmError.ValidationError)) ∧
    (pyStrip (target.getD "") ≠ "" → findByLeadId repo lid = none →
        assign_lead repo lid target now = (repo, Except.error CrmError.NotFound)) := by
  refine ⟨?_, ?_, ?_⟩
  · intro l hne hfind hlt
    have h1 : assign_lead repo lid target now =
        (updateFirst repo lid (assignRow (pyStrip (target.getD "")) now),
         Except.ok ()) := by
      simp [assign_lead, hne, hfind]
    refine ⟨by rw [h1], assignRow (pyStrip (target.getD "")) now l, ?_, ?_, ?_, ?_⟩
    · rw [h1]
      exact findByLeadId_updateFirst repo lid (assignRow (pyStrip (target.getD "")) now)
        (assignRow_lead_id (pyStrip (target.getD "")) now) l hfind
    · by_cases hc : l.assigned_to = some (pyStrip (target.getD ""))
      · unfold assignRow
        rw [if_pos hc]
        exact hc
      · unfold assignRow
        rw [if_neg hc]
    · intro hdiff
      unfold assignRow
      rw [if_neg hdiff]
      exact hlt
    · intro hsame
      unfold assignRow
      rw [if_pos hsame]
  · intro hbl
    simp [assign_lead, hbl]
  · intro hne hfind
    simp [assign_lead, hne, hfind]

/-- Witness for C1: assigning "Priya" to a previously unassigned lead
(where `updated_at` strictly increases), a concrete blank-target
rejection, and a concrete unknown-lead rejection. -/
theorem assign_lead_spec_witness :
    ((assign_lead [sampleLead] "A1B2C3D4" (some " Priya ") 1700000100).2 = Except.ok () ∧
      ∃ l', findByLeadId (assign_lead [sampleLead] "A1B2C3D4" (some " Priya ") 1700000100).1
          "A1B2C3D4" = some l' ∧
        l'.assigned_to = some (pyStrip ((some " Priya ").getD "")) ∧
        (sampleLead.assigned_to ≠ some (pyStrip ((some " Priya ").getD "")) →
          sampleLead.updated_at < l'.updated_at) ∧
        (sampleLead.assigned_to = some (pyStrip ((some " Priya ").getD "")) →
          l' = sampleLead)) ∧
    assign_lead [sampleLead] "A1B2C3D4" (some "   ") 1700000100 =
      ([sampleLead], Except.error CrmError.ValidationError) ∧
    assign_lead [sampleLead] "ZZZZ9999" (some "Priya") 1700000100 =
      ([sampleLead], Except.error CrmError.NotFound) :=
  ⟨(assign_lead_spec [sampleLead] "A1B2C3D4" (some " Priya ") 1700000100).1 sampleLead
      (by decide) (by decide) (by decide),
   (assign_lead_spec [sampleLead] "A1B2C3D4" (some "   ") 1700000100).2.1 (by decide),
   (assign_lead_spec [sampleLead] "ZZZZ9999" (some "Priya") 1700000100).2.2
      (by decide) (by decide)⟩

/-- C2: for dates `d1 ≤ d2`, the created-range filter is inclusive with the
end bound extended to 23:59:59 of day `d2`: a lead created at `d2` 23:59:59
is included and a lead created at 00:00:01 of day `d2 + 1` is excluded. -/
theorem filterByCreatedRange_end_of_day (repo : List Lead) (l : Lead) (d1 d2 : Nat)
    (hd : d1 ≤ d2) (hmem : l ∈ repo) :
    (l.created_at = d2 * 86400 + 86399 → l ∈ filterByCreatedRange repo d1 d2) ∧
    (l.created_at = (d2 + 1) * 86400 + 1 → l ∉ filterByCreatedRange repo d1 d2) := by
  constructor
  · intro hc
    simp only [filterByCreatedRange, List.mem_filter, dayStartSecs, dayEndSecs, hc,
      Bool.and_eq_true, decide_eq_true_eq]
    exact ⟨hmem, by nlinarith, le_refl _⟩
  · intro hc hin
    simp only [filterByCreatedRange, List.mem_filter, dayStartSecs, dayEndSecs, hc,
      Bool.and_eq_true, decide_eq_true_eq] at hin
    omega

/-- A lead created at 23:59:59 of day 200, for the C2 witness. -/
def c2Lead : Lead := { sampleLead with lead_id := "C2LEAD01", created_at := 17366399 }

/-- A lead created at 00:00:01 of day 201, for the C2 witness. -/
def c2LeadLate : Lead := { sampleLead with lead_id := "C2LEAD02", created_at := 17366401 }

/-- Witness for C2 at `d1 = 100`, `d2 = 200`. -/
theorem filterByCreatedRange_end_of_day_witness :
    c2Lead ∈ filterByCreatedRange [c2Lead, c2LeadLate] 100 200 ∧
    c2LeadLate ∉ filterByCreatedRange [c2Lead, c2LeadLate] 100 200 :=
  ⟨(filterByCreatedRange_end_of_day [c2Lead, c2LeadLate] c2Lead 100 200
      (by decide) (by decide)).1 (by decide),
   (filterByCreatedRange_end_of_day [c2Lead, c2LeadLate] c2LeadLate 100 200
      (by decide) (by decide)).2 (by decide)⟩

theorem flagsRow_lead_id (form : FlagForm) (now : Nat) (l : Lead) :
    (flagsRow form now l).lead_id = l.lead_id := by
  unfold flagsRow
  split <;> rfl

theorem flagsRow_flags (form : FlagForm) (now : Nat) (l : Lead) :
    (flagsRow form now l).not_interested = form.not_interested ∧
    (flagsRow form now l).require_letter = form.require_letter ∧
    (flagsRow form now l).email_catalogue = form.email_catalogue ∧
    (flagsRow form now l).quotation_sent = form.quotation_sent := by
  unfold flagsRow
  by_cases hc : l.not_interested = form.not_interested ∧
      l.require_letter = form.require_letter ∧
      l.email_catalogue = form.email_catalogue ∧
      l.quotation_sent = form.quotation_sent
  · rw [if_pos hc]
    exact hc
  · rw [if_neg hc]
    exact ⟨rfl, rfl, rfl, rfl⟩

/-- C3: a follow-up-flag update on an existing lead succeeds and sets each
of the four booleans exactly to the presence of its checkbox — a full
overwrite, quantified over every form including the all-absent one; a call
naming an unknown `lead_id` leaves the repository unchanged and reports
`NotFound`. -/
theorem meeting_stats_spec (repo : List Lead) (lid : String) (form : FlagForm)
    (now : Nat) :
    (∀ l, findByLeadId repo lid = some l →
        (meeting_stats repo lid form now).2 = Except.ok () ∧
        ∃ l', findByLeadId (meeting_stats repo lid form now).1 lid = some l' ∧
          l'.not_interested = form.not_interested ∧
          l'.require_letter = form.require_letter ∧
          l'.email_catalogue = form.email_catalogue ∧
          l'.quotation_sent = form.quotation_sent) ∧
    (findByLeadId repo lid = none →
        meeting_stats repo lid form now = (repo, Except.error CrmError.NotFound)) := by
  constructor
  · intro l hfind
    have h1 : meeting_stats repo lid form now =
        (updateFirst repo lid (flagsRow form now), Except.ok ()) := by
      simp [meeting_stats, hfind]
    refine ⟨by rw [h1], flagsRow form now l, ?_,
      (flagsRow_flags form now l).1, (flagsRow_flags form now l).2.1,
      (flagsRow_flags form now l).2.2.1, (flagsRow_flags form now l).2.2.2⟩
    rw [h1]
    exact findByLeadId_updateFirst repo lid (flagsRow form now)
      (flagsRow_lead_id form now) l hfind
  · intro hfind
    simp [meeting_stats, hfind]

/-- Witness for C3: an update with no checkbox signaled on a lead whose
`require_letter` flag was previously true sets all four flags false, and a
concrete unknown-lead call reports `NotFound`. -/
theorem meeting_stats_spec_witness :
    ((meeting_stats [sampleLead] "A1B2C3D4" ⟨false, false, false, false⟩ 1700000100).2 =
        Except.ok () ∧
      ∃ l', findByLeadId
          (meeting_stats [sampleLead] "A1B2C3D4" ⟨false, false, false, false⟩ 1700000100).1
          "A1B2C3D4" = some l' ∧
        l'.not_interested = false ∧ l'.require_letter = false ∧
        l'.email_catalogue = false ∧ l'.quotation_sent = false) ∧
    meeting_stats [sampleLead] "ZZZZ9999" ⟨false, false, false, false⟩ 1700000100 =
      ([sampleLead], Except.error CrmError.NotFound) :=
  ⟨(meeting_stats_spec [sampleLead] "A1B2C3D4" ⟨false, false, false, false⟩
      1700000100).1 sampleLead (by decide),
   (meeting_stats_spec [sampleLead] "ZZZZ9999" ⟨false, false, false, false⟩
      1700000100).2 (by decide)⟩

theorem rescheduleRow_lead_id (form : RescheduleForm) (now : Nat) (l : Lead) :
    (rescheduleRow form now l).lead_id = l.lead_id := by
  unfold rescheduleRow
  split <;> rfl

theorem rescheduleRow_fields (form : RescheduleForm) (now : Nat) (l : Lead) :
    (rescheduleRow form now l).reschedule_date = form.reschedule_date ∧
    (rescheduleRow form now l).reschedule_time = form.reschedule_time ∧
    (rescheduleRow form now l).reschedule_remark =
      some (pyStrip (form.remark.getD "")) := by
  unfold rescheduleRow
  by_cases hc : l.reschedule_date = form.reschedule_date ∧
      l.reschedule_time = form.reschedule_time ∧
      l.reschedule_remark = some (pyStrip (form.remark.getD ""))
  · rw [if_pos hc]
    exact hc
  · rw [if_neg hc]
    exact ⟨rfl, rfl, rfl⟩

/-- The state of `sampleLead` after a first all-empty reschedule at clock
1700000100: the NULL → `''` remark write was a net change, so that commit
did refresh `updated_at`. -/
def c4Touched : Lead :=
  { sampleLead with reschedule_remark := some "", updated_at := 1700000100 }

/-- C4 counterexample: the first all-empty reschedule of a fresh lead does
refresh `updated_at` (the stored NULL remark changes to `''`), but
re-submitting the identical all-empty form finds every submitted value
equal to the stored one, so the flush emits no UPDATE and `updated_at`
stays at its old value even though the route reports success — refuting
"every successful reschedule call refreshes the lead's updated_at". -/
theorem reschedule_no_net_change_no_touch :
    reschedule_meeting [sampleLead] "A1B2C3D4" ⟨none, none, none⟩ 1700000100 =
      ([c4Touched], Except.ok ()) ∧
    reschedule_meeting [c4Touched] "A1B2C3D4" ⟨none, none, none⟩ 1700000200 =
      ([c4Touched], Except.ok ()) ∧
    c4Touched.updated_at = 1700000100 ∧ (1700000100 : Nat) ≠ 1700000200 := by
  decide

/-- C4 (amended): a reschedule call on an existing lead always succeeds —
absent date and time parse to null rather than failing — and the commit
refreshes `updated_at` exactly when some submitted value differs from the
stored one: an all-null reschedule of a lead whose remark is still NULL
does refresh (NULL → `''`), while re-submitting the stored values leaves
the row, `updated_at` included, untouched.  A call naming an unknown
`lead_id` leaves the repository unchanged and reports `NotFound`. -/
theorem reschedule_meeting_spec (repo : List Lead) (lid : String)
    (form : RescheduleForm) (now : Nat) :
    (∀ l, findByLeadId repo lid = some l →
        (reschedule_meeting repo lid form now).2 = Except.ok () ∧
        ∃ l', findByLeadId (reschedule_meeting repo lid form now).1 lid = some l' ∧
          (¬(l.reschedule_date = form.reschedule_date ∧
             l.reschedule_time = form.reschedule_time ∧
             l.reschedule_remark = some (pyStrip (form.remark.getD ""))) →
            l'.updated_at = now) ∧
          ((l.reschedule_date = form.reschedule_date ∧
            l.reschedule_time = form.reschedule_time ∧
            l.reschedule_remark = some (pyStrip (form.remark.getD ""))) →
            l' = l)) ∧
    (findByLeadId repo lid = none →
        reschedule_meeting repo lid form now = (repo, Except.error CrmError.NotFound)) := by
  constructor
  · intro l hfind
    have h1 : reschedule_meeting repo lid form now =
        (updateFirst repo lid (rescheduleRow form now), Except.ok ()) := by
      simp [reschedule_meeting, hfind]
    refine ⟨by rw [h1], rescheduleRow form now l, ?_, ?_, ?_⟩
    · rw [h1]
      exact findByLeadId_updateFirst repo lid (rescheduleRow form now)
        (rescheduleRow_lead_id form now) l hfind
    · intro hdiff
      unfold rescheduleRow
      rw [if_neg hdiff]
    · intro hsame
      unfold rescheduleRow
      rw [if_pos hsame]
  · intro hfind
    simp [reschedule_meeting, hfind]

/-- Witness for C4: an all-empty reschedule of a fresh lead (NULL remark,
a net change) stamps `updated_at`, and a concrete unknown-lead call
reports `NotFound` with the repository unchanged. -/
theorem reschedule_meeting_spec_witness :
    ((reschedule_meeting [sampleLead] "A1B2C3D4" ⟨none, none, none⟩ 1700000100).2 =
        Except.ok () ∧
      ∃ l', findByLeadId
          (reschedule_meeting [sampleLead] "A1B2C3D4" ⟨none, none, none⟩ 1700000100).1
          "A1B2C3D4" = some l' ∧
        (¬(sampleLead.reschedule_date = none ∧ sampleLead.reschedule_time = none ∧
           sampleLead.reschedule_remark =
             some (pyStrip ((none : Option String).getD ""))) →
          l'.updated_at = 1700000100) ∧
        ((sampleLead.reschedule_date = none ∧ sampleLead.reschedule_time = none ∧
          sampleLead.reschedule_remark =
            some (pyStrip ((none : Option String).getD ""))) →
          l' = sampleLead)) ∧
    reschedule_meeting [sampleLead] "ZZZZ9999" ⟨none, none, none⟩ 1700000100 =
      ([sampleLead], Except.error CrmError.NotFound) :=
  ⟨(reschedule_meeting_spec [sampleLead] "A1B2C3D4" ⟨none, none, none⟩
      1700000100).1 sampleLead (by decide),
   (reschedule_meeting_spec [sampleLead] "ZZZZ9999" ⟨none, none, none⟩
      1700000100).2 (by decide)⟩

/-- C8: a reschedule call on an existing lead overwrites all three
reschedule fields regardless of their prior values: the stored
`reschedule_date` and `reschedule_time` become exactly the (possibly
absent) form values, and `reschedule_remark` becomes the stripped remark
string — the empty string when the remark input is omitted or empty. -/
theorem reschedule_overwrites_spec (repo : List Lead) (lid : String)
    (form : RescheduleForm) (now : Nat) (l : Lead)
    (hfind : findByLeadId repo lid = some l) :
    ∃ l', findByLeadId (reschedule_meeting repo lid form now).1 lid = some l' ∧
      l'.reschedule_date = form.reschedule_date ∧
      l'.reschedule_time = form.reschedule_time ∧
      l'.reschedule_remark = some (pyStrip (form.remark.getD "")) ∧
      (form.remark = none ∨ form.remark = some "" →
        l'.reschedule_remark = some "") := by
  have h1 : reschedule_meeting repo lid form now =
      (updateFirst repo lid (rescheduleRow form now), Except.ok ()) := by
    simp [reschedule_meeting, hfind]
  refine ⟨rescheduleRow form now l, by
    rw [h1]
    exact findByLeadId_updateFirst repo lid (rescheduleRow form now)
      (rescheduleRow_lead_id form now) l hfind,
    (rescheduleRow_fields form now l).1, (rescheduleRow_fields form now l).2.1,
    (rescheduleRow_fields form now l).2.2, ?_⟩
  have h2 := (rescheduleRow_fields form now l).2.2
  rintro (hr | hr) <;> rw [hr] at h2 <;> exact h2.trans (by decide)

/-- A lead with previously stored reschedule values, for the C8 witness. -/
def c8Lead : Lead :=
  { sampleLead with lead_id := "C8LEAD01", reschedule_date := some 19810,
                    reschedule_time := some 52200,
                    reschedule_remark := some "old remark" }

/-- Witness for C8: rescheduling `c8Lead` with every input omitted erases
its previously stored reschedule date, time and remark. -/
theorem reschedule_overwrites_spec_witness :
    ∃ l', findByLeadId
        (reschedule_meeting [c8Lead] "C8LEAD01" ⟨none, none, none⟩ 1700000100).1
        "C8LEAD01" = some l' ∧
      l'.reschedule_date = none ∧
      l'.reschedule_time = none ∧
      l'.reschedule_remark = some (pyStrip ((none : Option String).getD "")) ∧
      ((none : Option String) = none ∨ (none : Option String) = some "" →
        l'.reschedule_remark = some "") :=
  reschedule_overwrites_spec [c8Lead] "C8LEAD01" ⟨none, none, none⟩ 1700000100
    c8Lead (by decide)

theorem boolCell_yes_or_no (b : Bool) : boolCell b = "Yes" ∨ boolCell b = "No" := by
  cases b
  · exact Or.inr rfl
  · exact Or.inl rfl

theorem leadRow_bool_cells (l : Lead) :
    (leadRow l)[13]? = some (boolCell l.not_interested) ∧
    (leadRow l)[14]? = some (boolCell l.require_letter) ∧
    (leadRow l)[15]? = some (boolCell l.email_catalogue) ∧
    (leadRow l)[16]? = some (boolCell l.quotation_sent) :=
  ⟨rfl, rfl, rfl, rfl⟩

/-- C5: an export whose filtered lead set is empty reports
`NoDataForExport` and produces no document; an export on a non-empty
filtered set produces a document with one row per filtered lead plus one
header row, in which every cell of the four boolean columns is exactly
`"Yes"` or `"No"`. -/
theorem export_data_spec (repo : List Lead) (ty : String) (sd ed : Option Nat) :
    (export_filter repo ty sd ed = [] →
        export_data repo ty sd ed = Except.error CrmError.NoDataForExport) ∧
    (export_filter repo ty sd ed ≠ [] →
        ∃ doc, export_data repo ty sd ed = Except.ok doc ∧
          doc.length = (export_filter repo ty sd ed).length + 1 ∧
          ∀ row ∈ doc.drop 1, ∀ i ∈ ([13, 14, 15, 16] : List Nat),
            row[i]? = some "Yes" ∨ row[i]? = some "No") := by
  have hperm : (sortByCreatedDesc (export_filter repo ty sd ed)).Perm
      (export_filter repo ty sd ed) :=
    List.perm_insertionSort createdDesc (export_filter repo ty sd ed)
  constructor
  · intro h
    rw [export_data]
    have : sortByCreatedDesc (export_filter repo ty sd ed) = [] := by
      rw [h]; rfl
    simp [this]
  · intro h
    have hne : sortByCreatedDesc (export_filter repo ty sd ed) ≠ [] := by
      intro he
      apply h
      have hlen := hperm.length_eq
      rw [he] at hlen
      exact List.eq_nil_of_length_eq_zero hlen.symm
    have hemp : (sortByCreatedDesc (export_filter repo ty sd ed)).isEmpty = false := by
      simpa [List.isEmpty_iff] using hne
    refine ⟨headerRow ::
      (sortByCreatedDesc (export_filter repo ty sd ed)).map leadRow, ?_, ?_, ?_⟩
    · rw [export_data]
      simp [hemp]
    · simp [List.length_map, hperm.length_eq]
    · intro row hrow i hi
      simp only [List.drop_succ_cons, List.drop_zero, List.mem_map] at hrow
      obtain ⟨l, _, hl⟩ := hrow
      subst hl
      have hcells := leadRow_bool_cells l
      fin_cases hi
      · rw [hcells.1]
        rcases boolCell_yes_or_no l.not_interested with hy | hn
        · exact Or.inl (by rw [hy])
        · exact Or.inr (by rw [hn])
      · rw [hcells.2.1]
        rcases boolCell_yes_or_no l.require_letter with hy | hn
        · exact Or.inl (by rw [hy])
        · exact Or.inr (by rw [hn])
      · rw [hcells.2.2.1]
        rcases boolCell_yes_or_no l.email_catalogue with hy | hn
        · exact Or.inl (by rw [hy])
        · exact Or.inr (by rw [hn])
      · rw [hcells.2.2.2]
        rcases boolCell_yes_or_no l.quotation_sent with hy | hn
        · exact Or.inl (by rw [hy])
        · exact Or.inr (by rw [hn])

/-- Witness for C5: the all-leads export of an empty repository reports
`NoDataForExport`, and the all-leads export of a one-lead repository
produces a two-row document with `Yes`/`No` boolean cells. -/
theorem export_data_spec_witness :
    export_data [] "all" none none = Except.error CrmError.NoDataForExport ∧
    ∃ doc, export_data [sampleLead] "all" none none = Except.ok doc ∧
      doc.length = (export_filter [sampleLead] "all" none none).length + 1 ∧
      ∀ row ∈ doc.drop 1, ∀ i ∈ ([13, 14, 15, 16] : List Nat),
        row[i]? = some "Yes" ∨ row[i]? = some "No" :=
  ⟨(export_data_spec [] "all" none none).1 rfl,
   (export_data_spec [sampleLead] "all" none none).2 (by decide)⟩

/-- C9: an export request in one of the two range modes with the start or
the end date absent silently skips the range filter — the export proceeds
over all leads, exactly as the all-leads export — and in particular never
reports a `ValidationError`. -/
theorem export_missing_range_dates_spec (repo : List Lead) (ty : String)
    (sd ed : Option Nat) (hty : ty = "date_range" ∨ ty = "created_range")
    (hmiss : sd = none ∨ ed = none) :
    export_filter repo ty sd ed = repo ∧
    export_data repo ty sd ed = export_data repo "all" none none ∧
    export_data repo ty sd ed ≠ Except.error CrmError.ValidationError := by
  have hf : export_filter repo ty sd ed = repo := by
    rcases hty with hty | hty <;> subst hty <;> rcases hmiss with hmiss | hmiss
    · subst hmiss; cases ed <;> rfl
    · subst hmiss; cases sd <;> rfl
    · subst hmiss; cases ed <;> rfl
    · subst hmiss; cases sd <;> rfl
  have hall : export_filter repo "all" none none = repo := rfl
  refine ⟨hf, ?_, ?_⟩
  · rw [export_data, export_data, hf, hall]
  · rw [export_data, hf]
    by_cases he : (sortByCreatedDesc repo).isEmpty <;> simp [he]

/-- Witness for C9: a created-range export with the start date missing
behaves exactly like the all-leads export. -/
theorem export_missing_range_dates_spec_witness :
    export_filter [sampleLead] "created_range" none (some 200) = [sampleLead] ∧
    export_data [sampleLead] "created_range" none (some 200) =
      export_data [sampleLead] "all" none none ∧
    export_data [sampleLead] "created_range" none (some 200) ≠
      Except.error CrmError.ValidationError :=
  export_missing_range_dates_spec [sampleLead] "created_range" none (some 200)
    (Or.inr rfl) (Or.inl rfl)

/-- C10: every document the export produces consists of the header row
followed by the rows of the filtered leads ordered by `created_at`
descending, whatever the selected filter mode. -/
theorem export_sorted_spec (repo : List Lead) (ty : String) (sd ed : Option Nat)
    (doc : List (List String))
    (hdoc : export_data repo ty sd ed = Except.ok doc) :
    ∃ leads, doc = headerRow :: leads.map leadRow ∧
      List.Sorted createdDesc leads ∧
      leads.Perm (export_filter repo ty sd ed) := by
  refine ⟨sortByCreatedDesc (export_filter repo ty sd ed), ?_, ?_, ?_⟩
  · by_cases he : (sortByCreatedDesc (export_filter repo ty sd ed)).isEmpty
    · rw [export_data] at hdoc
      simp [he] at hdoc
    · rw [export_data] at hdoc
      simp [he] at hdoc
      exact hdoc.symm
  · exact List.sorted_insertionSort createdDesc _
  · exact List.perm_insertionSort createdDesc _

/-- Witness for C10: the all-leads export of a two-lead repository lists
the later-created lead first. -/
theorem export_sorted_spec_witness :
    ∃ leads,
      (headerRow :: [leadRow c2LeadLate, leadRow c2Lead] : List (List String)) =
        headerRow :: leads.map leadRow ∧
      List.Sorted createdDesc leads ∧
      leads.Perm (export_filter [c2Lead, c2LeadLate] "all" none none) :=
  export_sorted_spec [c2Lead, c2LeadLate] "all" none none
    (headerRow :: [leadRow c2LeadLate, leadRow c2Lead]) rfl

theorem hexDigit_toUpper_alnum : ∀ n : Fin 16,
    ((hexDigit n).toUpper.isUpper = true) ∨ ((hexDigit n).toUpper.isDigit = true) := by
  decide

/-- C6: a successful lead insertion returns a record whose `lead_id` is an
8-character token of uppercase letters and digits, whose `created_at` and
`updated_at` are equal, and whose `lead_id` collides with no stored one —
so lead identifiers stay pairwise distinct across the repository. -/
theorem new_lead_spec (repo : List Lead) (nibbles : List (Fin 16))
    (form : NewLeadForm) (now : Nat) (repo' : List Lead) (lead : Lead)
    (h8 : 8 ≤ nibbles.length)
    (hsucc : new_lead repo nibbles form now = (repo', Except.ok lead)) :
    lead.lead_id.length = 8 ∧
    (∀ c ∈ lead.lead_id.data, c.isUpper = true ∨ c.isDigit = true) ∧
    lead.created_at = lead.updated_at ∧
    lead.lead_id ∉ repo.map Lead.lead_id ∧
    ((repo.map Lead.lead_id).Nodup → (repo'.map Lead.lead_id).Nodup) := by
  by_cases hany : repo.any (fun l => l.lead_id == genLeadId nibbles) = true
  · simp [new_lead, hany] at hsucc
  · rw [Bool.not_eq_true] at hany
    simp only [new_lead, hany, Bool.false_eq_true, if_false, Prod.mk.injEq,
      Except.ok.injEq] at hsucc
    obtain ⟨hrepo, hlead⟩ := hsucc
    have hnotin : genLeadId nibbles ∉ repo.map Lead.lead_id := by
      intro hmem
      rw [List.mem_map] at hmem
      obtain ⟨l, hl, hid⟩ := hmem
      rw [List.any_eq_false] at hany
      exact hany l hl (by simp [hid])
    refine ⟨?_, ?_, ?_, ?_, ?_⟩
    · rw [← hlead]
      show (genLeadId nibbles).length = 8
      simp only [genLeadId, String.length, List.length_map, List.length_take]
      omega
    · intro c hc
      rw [← hlead] at hc
      have hc' : c ∈ (nibbles.take 8).map (fun n => (hexDigit n).toUpper) := hc
      rw [List.mem_map] at hc'
      obtain ⟨n, _, hn⟩ := hc'
      rw [← hn]
      exact hexDigit_toUpper_alnum n
    · rw [← hlead]; rfl
    · rw [← hlead]
      exact hnotin
    · intro hnd
      rw [← hrepo]
      rw [List.map_append, List.nodup_append]
      exact ⟨hnd, List.nodup_singleton _, by
        intro a ha hb
        simp only [List.map_cons, List.map_nil, List.mem_singleton] at hb
        rw [hb] at ha
        exact hnotin ha⟩

/-- Eight concrete random nibbles standing in for the UUID source, for the
C6 witness. -/
def c6Nibbles : List (Fin 16) := [10, 11, 12, 13, 14, 15, 0, 1]

/-- An all-absent new-lead form, for the C6 witness. -/
def emptyNewLeadForm : NewLeadForm :=
  ⟨none, none, none, none, none, none, none, none⟩

/-- Witness for C6: a concrete insertion into a one-lead repository. -/
theorem new_lead_spec_witness :
    (buildLead (genLeadId c6Nibbles) emptyNewLeadForm 5).lead_id.length = 8 ∧
    (∀ c ∈ (buildLead (genLeadId c6Nibbles) emptyNewLeadForm 5).lead_id.data,
      c.isUpper = true ∨ c.isDigit = true) ∧
    (buildLead (genLeadId c6Nibbles) emptyNewLeadForm 5).created_at =
      (buildLead (genLeadId c6Nibbles) emptyNewLeadForm 5).updated_at ∧
    (buildLead (genLeadId c6Nibbles) emptyNewLeadForm 5).lead_id ∉
      [sampleLead].map Lead.lead_id ∧
    (([sampleLead].map Lead.lead_id).Nodup →
      (([sampleLead] ++ [buildLead (genLeadId c6Nibbles) emptyNewLeadForm 5]).map
        Lead.lead_id).Nodup) :=
  new_lead_spec [sampleLead] c6Nibbles emptyNewLeadForm 5
    ([sampleLead] ++ [buildLead (genLeadId c6Nibbles) emptyNewLeadForm 5])
    (buildLead (genLeadId c6Nibbles) emptyNewLeadForm 5) (by decide) rfl

/-- A one-user credential store, used by the C7 counterexample. -/
def demoUsers : List User := [⟨"alice", generate_password_hash "pw123", "bd"⟩]

/-- C7 counterexample: on the concrete store `demoUsers`, the
unknown-username attempt ("bob" does not exist) and the wrong-password
attempt for the existing user "alice" produce the identical observable
outcome — the same flashed message — so the `NotFound` and
`InvalidCredential` failures are not distinguishable from each other by
the caller, refuting the claim as stated. -/
theorem login_notfound_invalid_same_outcome :
    login demoUsers "bob" "pw123" = LoginResult.failure "Invalid username or password" ∧
    login demoUsers "alice" "wrong" = LoginResult.failure "Invalid username or password" ∧
    login demoUsers "bob" "pw123" = login demoUsers "alice" "wrong" ∧
    (∀ u ∈ demoUsers, u.username ≠ "bob") ∧
    (∃ u ∈ demoUsers, u.username = "alice" ∧ u.password_hash ≠ "" ∧
      check_password_hash u.password_hash "wrong" = false) := by
  decide

/-- C7 amended: every credential check with a non-empty stripped username
and a non-empty password takes exactly one of four branches — success with
the stored identity and role on a password match, failure for an unknown
username, a distinct failure when the stored hash is absent, and failure
on a hash mismatch.  The account-reset message is distinguishable from the
message of the other two failures, but the unknown-username and
wrong-password branches surface one identical message, so those two are
not distinguishable from each other by the caller. -/
theorem login_branches_spec (users : List User) (uname pw : String)
    (hu : pyStrip uname ≠ "") (hp : pw ≠ "") :
    (users.find? (fun u => u.username == pyStrip uname) = none →
        login users uname pw = .failure "Invalid username or password") ∧
    (∀ u, users.find? (fun u => u.username == pyStrip uname) = some u →
        (u.password_hash = "" →
          login users uname pw =
            .failure "User account needs to be reset. Contact administrator.") ∧
        (u.password_hash ≠ "" → check_password_hash u.password_hash pw = true →
          login users uname pw = .success u.username u.role) ∧
        (u.password_hash ≠ "" → check_password_hash u.password_hash pw = false →
          login users uname pw = .failure "Invalid username or password")) ∧
    ("User account needs to be reset. Contact administrator." ≠
      "Invalid username or password") := by
  refine ⟨?_, ?_, by decide⟩
  · intro hfind
    simp [login, hu, hp, hfind]
  · intro u hfind
    refine ⟨?_, ?_, ?_⟩
    · intro hhash
      simp [login, hu, hp, hfind, hhash]
    · intro hhash hchk
      simp [login, hu, hp, hfind, hhash, hchk]
    · intro hhash hchk
      simp [login, hu, hp, hfind, hhash, hchk]

/-- A user whose stored hash is absent, for the C7 witness. -/
def resetUser : User := ⟨"carol", "", "user"⟩

/-- A two-user credential store, for the C7 witness. -/
def c7Users : List User :=
  [⟨"alice", generate_password_hash "pw123", "bd"⟩, resetUser]

/-- Witness for C7 (amended): all four branches at concrete inputs. -/
theorem login_branches_spec_witness :
    login c7Users "nobody" "x" = LoginResult.failure "Invalid username or password" ∧
    login c7Users "carol" "x" =
      LoginResult.failure "User account needs to be reset. Contact administrator." ∧
    login c7Users "alice" "pw123" = LoginResult.success "alice" "bd" ∧
    login c7Users "alice" "nope" = LoginResult.failure "Invalid username or password" :=
  ⟨(login_branches_spec c7Users "nobody" "x" (by decide) (by decide)).1 (by decide),
   ((login_branches_spec c7Users "carol" "x" (by decide) (by decide)).2.1 resetUser
      (by decide)).1 rfl,
   ((login_branches_spec c7Users "alice" "pw123" (by decide) (by decide)).2.1
      ⟨"alice", generate_password_hash "pw123", "bd"⟩ (by decide)).2.1
      (by decide) (by decide),
   ((login_branches_spec c7Users "alice" "nope" (by decide) (by decide)).2.1
      ⟨"alice", generate_password_hash "pw123", "bd"⟩ (by decide)).2.2
      (by decide) (by decide)⟩

end CRM
